import Mathlib

/-!
Verification of the ast-grep external-tool adapter
(`praisonaiagents/tools/ast_grep_tool.py`).

The adapter wraps an external CLI binary (`sg`).  We embed it shallowly:

* The outcome of `subprocess.run` is a value of `ProcResult`:
  `completed returncode stdout stderr` for a process that ran to completion,
  `timeoutExpired` for `subprocess.TimeoutExpired`,
  `subprocessError msg` for `subprocess.SubprocessError`, and
  `unexpectedError msg` for any other exception raised inside the `try`
  block.  Since the Python functions catch every one of these and return a
  string, the embedding is a total function into `String`.
* The environment (what the child process would do) is passed in as a
  function `run : List String → Nat → ProcResult` mapping the constructed
  command token list and the timeout bound to an outcome.  "No external
  process is launched" is then the statement that the result does not
  depend on `run`.
* The one-shot availability cache (`_availability_cache`) is explicit
  state of type `Option Bool`; `is_ast_grep_available` maps the cache and
  the current presence of the binary on PATH (`shutil.which` result) to
  the returned boolean and the new cache.
* Python string truthiness (`if not output:`) is emptiness; `str.strip()`
  is `pyStrip`, which drops leading and trailing whitespace characters.
-/

/-- Python's `str.strip()`: remove leading and trailing whitespace. -/
def pyStrip (s : String) : String :=
  String.mk
    (((s.data.dropWhile Char.isWhitespace).reverse.dropWhile
        Char.isWhitespace).reverse)

/-- Outcome of a `subprocess.run` call, including the exceptions the
Python code catches. -/
inductive ProcResult where
  | completed (returncode : Int) (stdout : String) (stderr : String)
  | timeoutExpired
  | subprocessError (msg : String)
  | unexpectedError (msg : String)
deriving DecidableEq, Repr

/-- The environment: what the child process does, as a function of the
command token list and the timeout bound passed to `subprocess.run`. -/
abbrev Runner : Type := List String → Nat → ProcResult

/-- `_get_not_installed_message` from the source: the instructional text
returned by every operation when the `sg` binary is absent. -/
def _get_not_installed_message : String :=
  "ast-grep is not installed or not available in PATH.\n\n" ++
  "To install ast-grep, run:\n" ++
  "  pip install ast-grep-cli\n\n" ++
  "Or install via npm:\n" ++
  "  npm install -g @ast-grep/cli\n\n" ++
  "For more information, visit: https://ast-grep.github.io/"

/-- `is_ast_grep_available` from the source.  `cache` is the module-level
`_availability_cache`; `sg_on_path` is whether `shutil.which` finds the
binary at this call.  Returns the boolean result and the new cache. -/
def is_ast_grep_available (cache : Option Bool) (sg_on_path : Bool) :
    Bool × Option Bool :=
  match cache with
  | some b => (b, some b)
  | none => (sg_on_path, some sg_on_path)

/-- The command token list built by `ast_grep_search`. -/
def searchCmd (pattern lang : String) (json_output : Bool) (path : String) :
    List String :=
  ["sg", "--pattern", pattern, "--lang", lang] ++
    (if json_output then ["--json"] else []) ++ [path]

/-- `ast_grep_search` from the source.  `available` is the value of
`is_ast_grep_available()` at this call; `run` is the environment. -/
def ast_grep_search (available : Bool) (run : Runner)
    (pattern lang : String) (path : String := ".")
    (json_output : Bool := true) : String :=
  if !available then _get_not_installed_message
  else if pattern = "" then "Error: Pattern cannot be empty"
  else
    match run (searchCmd pattern lang json_output path) 60 with
    | .completed rc out err =>
        if rc ≠ 0 ∧ err ≠ "" then "Error: " ++ err
        else
          let output := pyStrip out
          if output = "" then "No matches found" else output
    | .timeoutExpired => "Error: Search timed out after 60 seconds"
    | .subprocessError e => "Error executing ast-grep: " ++ e
    | .unexpectedError e => "Error: " ++ e

/-- The command token list built by `ast_grep_rewrite`. -/
def rewriteCmd (pattern replacement lang : String) (dry_run : Bool)
    (path : String) : List String :=
  ["sg", "--pattern", pattern, "--rewrite", replacement, "--lang", lang] ++
    (if dry_run then [] else ["--update-all"]) ++ [path]

/-- `ast_grep_rewrite` from the source. -/
def ast_grep_rewrite (available : Bool) (run : Runner)
    (pattern replacement lang : String) (path : String := ".")
    (dry_run : Bool := true) : String :=
  if !available then _get_not_installed_message
  else if pattern = "" then "Error: Pattern cannot be empty"
  else if replacement = "" then "Error: Replacement cannot be empty"
  else
    match run (rewriteCmd pattern replacement lang dry_run path) 120 with
    | .completed rc out err =>
        if rc ≠ 0 ∧ err ≠ "" then "Error: " ++ err
        else
          let output := pyStrip out
          if output = "" then
            if dry_run then "No matches found for rewrite" else "No changes made"
          else (if dry_run then "[DRY RUN] " else "") ++ output
    | .timeoutExpired => "Error: Rewrite timed out after 120 seconds"
    | .subprocessError e => "Error executing ast-grep: " ++ e
    | .unexpectedError e => "Error: " ++ e

/-- The command token list built by `ast_grep_scan`.  Python's
`if rule_file:` is falsy both for `None` and for the empty string. -/
def scanCmd (rule_file : Option String) (path : String) : List String :=
  ["sg", "scan"] ++
    (match rule_file with
     | some rf => if rf = "" then [] else ["--rule", rf]
     | none => []) ++ [path]

/-- `ast_grep_scan` from the source.  The return code of a completed
process is ignored: only `stderr` non-empty with empty (stripped) output
is an error. -/
def ast_grep_scan (available : Bool) (run : Runner)
    (path : String := ".") (rule_file : Option String := none) : String :=
  if !available then _get_not_installed_message
  else
    match run (scanCmd rule_file path) 120 with
    | .completed _rc out err =>
        let output := pyStrip out
        if err ≠ "" ∧ output = "" then "Error: " ++ err
        else if output = "" then "No issues found"
        else output
    | .timeoutExpired => "Error: Scan timed out after 120 seconds"
    | .subprocessError e => "Error executing ast-grep: " ++ e
    | .unexpectedError e => "Error: " ++ e

/-- A runner used in concrete witnesses: the child process always times out. -/
def timeoutRunner : Runner := fun _ _ => ProcResult.timeoutExpired

/-! ## Claims -/

/-- C2: whenever the binary is absent (`is_ast_grep_available` returned
`false`), search, rewrite and scan all return the exact same instructional
not-installed text, regardless of every other argument, and the result does
not depend on the runner (no external process is launched). -/
theorem c2_not_installed (run₁ run₂ : Runner)
    (pattern replacement lang path : String) (jo dr : Bool)
    (rf : Option String) :
    ast_grep_search false run₁ pattern lang path jo
      = _get_not_installed_message ∧
    ast_grep_rewrite false run₁ pattern replacement lang path dr
      = _get_not_installed_message ∧
    ast_grep_scan false run₁ path rf = _get_not_installed_message ∧
    ast_grep_search false run₁ pattern lang path jo
      = ast_grep_search false run₂ pattern lang path jo ∧
    ast_grep_rewrite false run₁ pattern replacement lang path dr
      = ast_grep_rewrite false run₂ pattern replacement lang path dr ∧
    ast_grep_scan false run₁ path rf = ast_grep_scan false run₂ path rf := by
  refine ⟨rfl, rfl, rfl, rfl, rfl, rfl⟩

/-- C4: the availability check caches its result on first invocation and
every later invocation returns the identical cached value even if the
binary's presence on PATH changes; a set cache never reverts to
uninitialized and never flips. -/
theorem c4_availability_cache (p₁ p₂ : Bool) :
    (is_ast_grep_available none p₁ = (p₁, some p₁)) ∧
    (is_ast_grep_available (is_ast_grep_available none p₁).2 p₂
      = (p₁, some p₁)) ∧
    (∀ b p, is_ast_grep_available (some b) p = (b, some b)) := by
  refine ⟨rfl, rfl, fun b p => rfl⟩

/-- C10: a scan whose child process completes with empty stdout and empty
stderr returns the sentinel "No issues found", whatever the exit code. -/
theorem c10_scan_no_issues (run : Runner) (path : String)
    (rf : Option String) (rc : Int)
    (h : run (scanCmd rf path) 120 = ProcResult.completed rc "" "") :
    ast_grep_scan true run path rf = "No issues found" := by
  simp [ast_grep_scan, h, pyStrip]

/-- C10 witness: a concrete runner whose process exits 1 with empty output
and empty stderr; scan returns "No issues found". -/
theorem c10_scan_no_issues_witness :
    ast_grep_scan true (fun _ _ => ProcResult.completed 1 "" "") "."
      (some "r.yml") = "No issues found" :=
  c10_scan_no_issues (fun _ _ => ProcResult.completed 1 "" "") "."
    (some "r.yml") 1 rfl

/-- Helper: a string starting with a non-empty literal is non-empty. -/
theorem append_ne_empty (s t : String) (h : s.data ≠ []) : s ++ t ≠ "" := by
  intro he
  have h2 : (s ++ t).data = [] := by rw [he]
  rw [String.data_append] at h2
  exact h (List.append_eq_nil.mp h2).1

/-- Helper: the not-installed message is non-empty. -/
theorem not_installed_ne_empty : _get_not_installed_message ≠ "" := by decide

/-- C1 counterexample: with the binary absent, a search with an empty
pattern returns the not-installed message, not the empty-pattern error
(the availability check runs before input validation). -/
theorem c1_counterexample :
    ast_grep_search false timeoutRunner "" "python" "." true
      ≠ "Error: Pattern cannot be empty" := by
  decide

/-- C1 (amended): when the binary is available, search with an empty
pattern returns exactly "Error: Pattern cannot be empty", and rewrite
with a non-empty pattern and an empty replacement returns exactly
"Error: Replacement cannot be empty"; in both cases — and likewise when
the binary is absent — the result does not depend on the runner, so no
external process is launched. -/
theorem c1_empty_inputs (run₁ run₂ : Runner) (p lang path : String)
    (jo dr : Bool) (hp : p ≠ "") :
    ast_grep_search true run₁ "" lang path jo
      = "Error: Pattern cannot be empty" ∧
    ast_grep_rewrite true run₁ p "" lang path dr
      = "Error: Replacement cannot be empty" ∧
    ast_grep_search true run₁ "" lang path jo
      = ast_grep_search true run₂ "" lang path jo ∧
    ast_grep_rewrite true run₁ p "" lang path dr
      = ast_grep_rewrite true run₂ p "" lang path dr ∧
    ast_grep_search false run₁ "" lang path jo
      = ast_grep_search false run₂ "" lang path jo ∧
    ast_grep_rewrite false run₁ p "" lang path dr
      = ast_grep_rewrite false run₂ p "" lang path dr := by
  refine ⟨rfl, ?_, rfl, ?_, rfl, rfl⟩ <;> simp [ast_grep_rewrite, hp]

/-- C1 witness: concrete instantiation of the amended claim with two
distinct runners and the pattern "def $F($$$)". -/
theorem c1_empty_inputs_witness :
    ast_grep_search true timeoutRunner "" "python" "." true
      = "Error: Pattern cannot be empty" ∧
    ast_grep_rewrite true timeoutRunner "def $F($$$)" "" "python" "." true
      = "Error: Replacement cannot be empty" ∧
    ast_grep_search true timeoutRunner "" "python" "." true
      = ast_grep_search true (fun _ _ => ProcResult.completed 0 "x" "")
          "" "python" "." true ∧
    ast_grep_rewrite true timeoutRunner "def $F($$$)" "" "python" "." true
      = ast_grep_rewrite true (fun _ _ => ProcResult.completed 0 "x" "")
          "def $F($$$)" "" "python" "." true ∧
    ast_grep_search false timeoutRunner "" "python" "." true
      = ast_grep_search false (fun _ _ => ProcResult.completed 0 "x" "")
          "" "python" "." true ∧
    ast_grep_rewrite false timeoutRunner "def $F($$$)" "" "python" "." true
      = ast_grep_rewrite false (fun _ _ => ProcResult.completed 0 "x" "")
          "def $F($$$)" "" "python" "." true :=
  c1_empty_inputs timeoutRunner (fun _ _ => ProcResult.completed 0 "x" "")
    "def $F($$$)" "python" "." true true (by decide)

/-- C3: a scan whose child process exits non-zero is treated as success
whenever its (stripped) stdout is non-empty — the issues list is
returned, not an error; when the stripped stdout is empty and stderr is
non-empty, the result is exactly "Error: " followed by the stderr text. -/
theorem c3_scan_exit_code (run : Runner) (path : String) (rf : Option String)
    (rc : Int) (out err : String)
    (h : run (scanCmd rf path) 120 = ProcResult.completed rc out err)
    (_hrc : rc ≠ 0) :
    (pyStrip out ≠ "" → ast_grep_scan true run path rf = pyStrip out) ∧
    (pyStrip out = "" → err ≠ "" →
      ast_grep_scan true run path rf = "Error: " ++ err) := by
  constructor
  · intro ho
    simp [ast_grep_scan, h, ho]
  · intro ho he
    simp [ast_grep_scan, h, ho, he]

/-- C3 witness: exit code 2 with an issues list on stdout yields the
issues list; exit code 2 with empty stdout and a diagnostic on stderr
yields the error string. -/
theorem c3_scan_exit_code_witness :
    ast_grep_scan true (fun _ _ => ProcResult.completed 2 "issues\n" "warn")
      "." none = "issues" ∧
    ast_grep_scan true (fun _ _ => ProcResult.completed 2 "" "boom")
      "." none = "Error: " ++ "boom" :=
  ⟨(c3_scan_exit_code (fun _ _ => ProcResult.completed 2 "issues\n" "warn")
      "." none 2 "issues\n" "warn" rfl (by decide)).1 (by decide),
   (c3_scan_exit_code (fun _ _ => ProcResult.completed 2 "" "boom")
      "." none 2 "" "boom" rfl (by decide)).2 (by decide) (by decide)⟩

/-- C5: a rewrite whose child process completes normally (exit 0) with
empty (stripped) stdout returns "No matches found for rewrite" in dry-run
mode and "No changes made" otherwise; the two sentinels are distinct. -/
theorem c5_rewrite_empty_output (run : Runner)
    (p r l path out₁ err₁ out₂ err₂ : String)
    (hp : p ≠ "") (hr : r ≠ "")
    (h₁ : run (rewriteCmd p r l true path) 120
      = ProcResult.completed 0 out₁ err₁)
    (h₂ : run (rewriteCmd p r l false path) 120
      = ProcResult.completed 0 out₂ err₂)
    (ho₁ : pyStrip out₁ = "") (ho₂ : pyStrip out₂ = "") :
    ast_grep_rewrite true run p r l path true
      = "No matches found for rewrite" ∧
    ast_grep_rewrite true run p r l path false = "No changes made" ∧
    ast_grep_rewrite true run p r l path true
      ≠ ast_grep_rewrite true run p r l path false := by
  have e₁ : ast_grep_rewrite true run p r l path true
      = "No matches found for rewrite" := by
    simp [ast_grep_rewrite, hp, hr, h₁, ho₁]
  have e₂ : ast_grep_rewrite true run p r l path false
      = "No changes made" := by
    simp [ast_grep_rewrite, hp, hr, h₂, ho₂]
  refine ⟨e₁, e₂, ?_⟩
  rw [e₁, e₂]
  decide

/-- C5 witness: whitespace-only stdout from both invocations, exit 0;
dry run yields the no-matches sentinel, real run the no-changes one. -/
theorem c5_rewrite_empty_output_witness :
    ast_grep_rewrite true (fun _ _ => ProcResult.completed 0 "\n" "")
      "a" "b" "python" "." true = "No matches found for rewrite" ∧
    ast_grep_rewrite true (fun _ _ => ProcResult.completed 0 "\n" "")
      "a" "b" "python" "." false = "No changes made" ∧
    ast_grep_rewrite true (fun _ _ => ProcResult.completed 0 "\n" "")
      "a" "b" "python" "." true
      ≠ ast_grep_rewrite true (fun _ _ => ProcResult.completed 0 "\n" "")
          "a" "b" "python" "." false :=
  c5_rewrite_empty_output (fun _ _ => ProcResult.completed 0 "\n" "")
    "a" "b" "python" "." "\n" "" "\n" "" (by decide) (by decide)
    rfl rfl (by decide) (by decide)

/-- C6: a dry-run rewrite whose child process completes with non-empty
(stripped) stdout, outside the error branch, returns the stripped output
prefixed with "[DRY RUN] "; a non-dry-run rewrite returns it unprefixed. -/
theorem c6_dry_run_marker (run : Runner) (p r l path : String)
    (rc₁ rc₂ : Int) (out₁ err₁ out₂ err₂ : String)
    (hp : p ≠ "") (hr : r ≠ "")
    (h₁ : run (rewriteCmd p r l true path) 120
      = ProcResult.completed rc₁ out₁ err₁)
    (hne₁ : ¬(rc₁ ≠ 0 ∧ err₁ ≠ "")) (ho₁ : pyStrip out₁ ≠ "")
    (h₂ : run (rewriteCmd p r l false path) 120
      = ProcResult.completed rc₂ out₂ err₂)
    (hne₂ : ¬(rc₂ ≠ 0 ∧ err₂ ≠ "")) (ho₂ : pyStrip out₂ ≠ "") :
    ast_grep_rewrite true run p r l path true
      = "[DRY RUN] " ++ pyStrip out₁ ∧
    ast_grep_rewrite true run p r l path false = pyStrip out₂ := by
  constructor
  · simp [ast_grep_rewrite, hp, hr, h₁, hne₁, ho₁]
  · simp [ast_grep_rewrite, hp, hr, h₂, hne₂, ho₂]

/-- C6 witness: a concrete dry run whose process prints a diff gets the
"[DRY RUN] " prefix; the same with dry run off returns the diff as is. -/
theorem c6_dry_run_marker_witness :
    ast_grep_rewrite true (fun _ _ => ProcResult.completed 0 "diff\n" "")
      "a" "b" "python" "." true = "[DRY RUN] " ++ pyStrip "diff\n" ∧
    ast_grep_rewrite true (fun _ _ => ProcResult.completed 0 "diff\n" "")
      "a" "b" "python" "." false = pyStrip "diff\n" :=
  c6_dry_run_marker (fun _ _ => ProcResult.completed 0 "diff\n" "")
    "a" "b" "python" "." 0 0 "diff\n" "" "diff\n" "" (by decide) (by decide)
    rfl (by decide) (by decide) rfl (by decide) (by decide)

/-- C7: a child process that exceeds its bounded wait produces the
operation-specific timeout message: search (bound 60) yields
"Error: Search timed out after 60 seconds"; rewrite and scan (bound 120)
yield the corresponding 120-second messages. -/
theorem c7_timeout_messages (run : Runner) (p r lang l path : String)
    (jo dr : Bool) (rf : Option String)
    (hp : p ≠ "") (hr : r ≠ "")
    (h₁ : run (searchCmd p lang jo path) 60 = ProcResult.timeoutExpired)
    (h₂ : run (rewriteCmd p r l dr path) 120 = ProcResult.timeoutExpired)
    (h₃ : run (scanCmd rf path) 120 = ProcResult.timeoutExpired) :
    ast_grep_search true run p lang path jo
      = "Error: Search timed out after 60 seconds" ∧
    ast_grep_rewrite true run p r l path dr
      = "Error: Rewrite timed out after 120 seconds" ∧
    ast_grep_scan true run path rf
      = "Error: Scan timed out after 120 seconds" := by
  refine ⟨?_, ?_, ?_⟩
  · simp [ast_grep_search, hp, h₁]
  · simp [ast_grep_rewrite, hp, hr, h₂]
  · simp [ast_grep_scan, h₃]

/-- C7 witness: the always-timing-out runner produces the three exact
timeout messages. -/
theorem c7_timeout_messages_witness :
    ast_grep_search true timeoutRunner "a" "python" "." true
      = "Error: Search timed out after 60 seconds" ∧
    ast_grep_rewrite true timeoutRunner "a" "b" "python" "." true
      = "Error: Rewrite timed out after 120 seconds" ∧
    ast_grep_scan true timeoutRunner "." none
      = "Error: Scan timed out after 120 seconds" :=
  c7_timeout_messages timeoutRunner "a" "b" "python" "python" "." true true
    none (by decide) (by decide) rfl rfl rfl

/-- Helper for C8: a search call returns a non-empty string for every
availability state, every input and every child-process outcome. -/
theorem search_result_ne_empty (avail : Bool) (run : Runner)
    (p lang path : String) (jo : Bool) :
    ast_grep_search avail run p lang path jo ≠ "" := by
  cases avail with
  | false => simpa [ast_grep_search] using not_installed_ne_empty
  | true =>
    by_cases hp : p = ""
    · have e : ast_grep_search true run p lang path jo
          = "Error: Pattern cannot be empty" := by
        simp [ast_grep_search, hp]
      rw [e]; decide
    · cases h : run (searchCmd p lang jo path) 60 with
      | completed rc out err =>
        by_cases herr : rc ≠ 0 ∧ err ≠ ""
        · have e : ast_grep_search true run p lang path jo
              = "Error: " ++ err := by
            simp [ast_grep_search, hp, h, herr]
          rw [e]; exact append_ne_empty _ err (by decide)
        · by_cases ho : pyStrip out = ""
          · have e : ast_grep_search true run p lang path jo
                = "No matches found" := by
              simp [ast_grep_search, hp, h, herr, ho]
            rw [e]; decide
          · have e : ast_grep_search true run p lang path jo
                = pyStrip out := by
              simp [ast_grep_search, hp, h, herr, ho]
            rw [e]; exact ho
      | timeoutExpired =>
        have e : ast_grep_search true run p lang path jo
            = "Error: Search timed out after 60 seconds" := by
          simp [ast_grep_search, hp, h]
        rw [e]; decide
      | subprocessError m =>
        have e : ast_grep_search true run p lang path jo
            = "Error executing ast-grep: " ++ m := by
          simp [ast_grep_search, hp, h]
        rw [e]; exact append_ne_empty _ m (by decide)
      | unexpectedError m =>
        have e : ast_grep_search true run p lang path jo
            = "Error: " ++ m := by
          simp [ast_grep_search, hp, h]
        rw [e]; exact append_ne_empty _ m (by decide)

/-- Helper for C8: a rewrite call returns a non-empty string for every
availability state, every input and every child-process outcome. -/
theorem rewrite_result_ne_empty (avail : Bool) (run : Runner)
    (p r l path : String) (dr : Bool) :
    ast_grep_rewrite avail run p r l path dr ≠ "" := by
  cases avail with
  | false => simpa [ast_grep_rewrite] using not_installed_ne_empty
  | true =>
    by_cases hp : p = ""
    · have e : ast_grep_rewrite true run p r l path dr
          = "Error: Pattern cannot be empty" := by
        simp [ast_grep_rewrite, hp]
      rw [e]; decide
    · by_cases hr : r = ""
      · have e : ast_grep_rewrite true run p r l path dr
            = "Error: Replacement cannot be empty" := by
          simp [ast_grep_rewrite, hp, hr]
        rw [e]; decide
      · cases h : run (rewriteCmd p r l dr path) 120 with
        | completed rc out err =>
          by_cases herr : rc ≠ 0 ∧ err ≠ ""
          · have e : ast_grep_rewrite true run p r l path dr
                = "Error: " ++ err := by
              simp [ast_grep_rewrite, hp, hr, h, herr]
            rw [e]; exact append_ne_empty _ err (by decide)
          · by_cases ho : pyStrip out = ""
            · cases dr with
              | true =>
                have e : ast_grep_rewrite true run p r l path true
                    = "No matches found for rewrite" := by
                  simp [ast_grep_rewrite, hp, hr, h, herr, ho]
                rw [e]; decide
              | false =>
                have e : ast_grep_rewrite true run p r l path false
                    = "No changes made" := by
                  simp [ast_grep_rewrite, hp, hr, h, herr, ho]
                rw [e]; decide
            · cases dr with
              | true =>
                have e : ast_grep_rewrite true run p r l path true
                    = "[DRY RUN] " ++ pyStrip out := by
                  simp [ast_grep_rewrite, hp, hr, h, herr, ho]
                rw [e]; exact append_ne_empty _ _ (by decide)
              | false =>
                have e : ast_grep_rewrite true run p r l path false
                    = pyStrip out := by
                  simp [ast_grep_rewrite, hp, hr, h, herr, ho]
                rw [e]; exact ho
        | timeoutExpired =>
          have e : ast_grep_rewrite true run p r l path dr
              = "Error: Rewrite timed out after 120 seconds" := by
            simp [ast_grep_rewrite, hp, hr, h]
          rw [e]; decide
        | subprocessError m =>
          have e : ast_grep_rewrite true run p r l path dr
              = "Error executing ast-grep: " ++ m := by
            simp [ast_grep_rewrite, hp, hr, h]
          rw [e]; exact append_ne_empty _ m (by decide)
        | unexpectedError m =>
          have e : ast_grep_rewrite true run p r l path dr
              = "Error: " ++ m := by
            simp [ast_grep_rewrite, hp, hr, h]
          rw [e]; exact append_ne_empty _ m (by decide)

/-- Helper for C8: a scan call returns a non-empty string for every
availability state, every input and every child-process outcome. -/
theorem scan_result_ne_empty (avail : Bool) (run : Runner)
    (path : String) (rf : Option String) :
    ast_grep_scan avail run path rf ≠ "" := by
  cases avail with
  | false => simpa [ast_grep_scan] using not_installed_ne_empty
  | true =>
    cases h : run (scanCmd rf path) 120 with
    | completed rc out err =>
      by_cases hc : err ≠ "" ∧ pyStrip out = ""
      · have e : ast_grep_scan true run path rf = "Error: " ++ err := by
          simp [ast_grep_scan, h, hc]
        rw [e]; exact append_ne_empty _ err (by decide)
      · by_cases ho : pyStrip out = ""
        · have herr : err = "" := by
            by_contra hne
            exact hc ⟨hne, ho⟩
          have e : ast_grep_scan true run path rf = "No issues found" := by
            simp [ast_grep_scan, h, herr, ho]
          rw [e]; decide
        · have e : ast_grep_scan true run path rf = pyStrip out := by
            simp [ast_grep_scan, h, hc, ho]
          rw [e]; exact ho
    | timeoutExpired =>
      have e : ast_grep_scan true run path rf
          = "Error: Scan timed out after 120 seconds" := by
        simp [ast_grep_scan, h]
      rw [e]; decide
    | subprocessError m =>
      have e : ast_grep_scan true run path rf
          = "Error executing ast-grep: " ++ m := by
        simp [ast_grep_scan, h]
      rw [e]; exact append_ne_empty _ m (by decide)
    | unexpectedError m =>
      have e : ast_grep_scan true run path rf = "Error: " ++ m := by
        simp [ast_grep_scan, h]
      rw [e]; exact append_ne_empty _ m (by decide)

/-- C8: for every input and every child-process outcome — completion with
any exit code and streams, timeout, launch failure, or unexpected internal
failure — search, rewrite and scan each return a (non-empty) descriptive
string.  The embedding is a total function into `String` whose outcome
type covers every exception the source catches, so no exception crosses
the boundary. -/
theorem c8_no_raise_descriptive (avail : Bool) (run : Runner)
    (p r lang l path : String) (jo dr : Bool) (rf : Option String) :
    ast_grep_search avail run p lang path jo ≠ "" ∧
    ast_grep_rewrite avail run p r l path dr ≠ "" ∧
    ast_grep_scan avail run path rf ≠ "" :=
  ⟨search_result_ne_empty avail run p lang path jo,
   rewrite_result_ne_empty avail run p r l path dr,
   scan_result_ne_empty avail run path rf⟩

/-- C9: for every rewrite invocation that reaches process execution, the
constructed token list contains the in-place-mutation flag
"--update-all" iff `dry_run` is false (assuming no argument value
coincides with the flag string), and the target path is the final token
in both cases. -/
theorem c9_update_all_flag (p r l path : String) (dr : Bool)
    (hp : p ≠ "--update-all") (hr : r ≠ "--update-all")
    (hl : l ≠ "--update-all") (hpath : path ≠ "--update-all") :
    ("--update-all" ∈ rewriteCmd p r l dr path ↔ dr = false) ∧
    (rewriteCmd p r l dr path).getLast? = some path := by
  constructor
  · cases dr with
    | false => simp [rewriteCmd]
    | true =>
      simp [rewriteCmd, Ne.symm hp, Ne.symm hr, Ne.symm hl, Ne.symm hpath]
  · cases dr <;> simp [rewriteCmd, List.getLast?_concat]

/-- C9 witness: a concrete rewrite invocation with `dry_run = false`
contains "--update-all" and ends with the target path. -/
theorem c9_update_all_flag_witness :
    (("--update-all" ∈ rewriteCmd "console.log($M)" "logger.info($M)"
        "javascript" false ".") ↔ (false = false)) ∧
    (rewriteCmd "console.log($M)" "logger.info($M)"
        "javascript" false ".").getLast? = some "." :=
  c9_update_all_flag "console.log($M)" "logger.info($M)" "javascript" "."
    false (by decide) (by decide) (by decide) (by decide)
